import Mathlib

/-!
Verification of the OpenNOW rewrite OAuth2/PKCE login helper
(`src/opennow-rewrite/src/auth/login.cpp`) against its specification.

Strings are modelled as `List Char`, byte sequences as `List Nat`
(each entry a byte value `< 256`), 32-bit machine arithmetic as `Nat`
arithmetic reduced modulo `2 ^ 32`.  Socket-facing operations are
modelled by explicit environments describing the outcomes of the
system calls, and a thrown C++ exception is modelled as `Option.none`
(for `url_decode`) or `Except.error ()` (for the operations it is
reached through).
-/

namespace OpenNow

/-- Convert a string literal to the byte-level character list used everywhere. -/
def chars (s : String) : List Char := s.toList

/-- Byte value of a character (C++ strings hold bytes; input here is ASCII). -/
def byteOfChar (c : Char) : Nat := c.toNat % 256

/-- Byte sequence of a character list, as fed to the hash. -/
def bytesOfChars (l : List Char) : List Nat := l.map byteOfChar

/-! ## SHA-256 (`sha256` in login.cpp, lines 29–104) -/

/-- Modulus of 32-bit unsigned arithmetic. -/
def M32 : Nat := 4294967296

/-- The 64 SHA-256 round constants (`kTable` in the source). -/
def kTable : List Nat :=
  [0x428A2F98, 0x71374491, 0xB5C0FBCF, 0xE9B5DBA5, 0x3956C25B, 0x59F111F1, 0x923F82A4, 0xAB1C5ED5,
   0xD807AA98, 0x12835B01, 0x243185BE, 0x550C7DC3, 0x72BE5D74, 0x80DEB1FE, 0x9BDC06A7, 0xC19BF174,
   0xE49B69C1, 0xEFBE4786, 0x0FC19DC6, 0x240CA1CC, 0x2DE92C6F, 0x4A7484AA, 0x5CB0A9DC, 0x76F988DA,
   0x983E5152, 0xA831C66D, 0xB00327C8, 0xBF597FC7, 0xC6E00BF3, 0xD5A79147, 0x06CA6351, 0x14292967,
   0x27B70A85, 0x2E1B2138, 0x4D2C6DFC, 0x53380D13, 0x650A7354, 0x766A0ABB, 0x81C2C92E, 0x92722C85,
   0xA2BFE8A1, 0xA81A664B, 0xC24B8B70, 0xC76C51A3, 0xD192E819, 0xD6990624, 0xF40E3585, 0x106AA070,
   0x19A4C116, 0x1E376C08, 0x2748774C, 0x34B0BCB5, 0x391C0CB3, 0x4ED8AA4A, 0x5B9CCA4F, 0x682E6FF3,
   0x748F82EE, 0x78A5636F, 0x84C87814, 0x8CC70208, 0x90BEFFFA, 0xA4506CEB, 0xBEF9A3F7, 0xC67178F2]

/-- Initial hash values `h` of the source. -/
def hInit : List Nat :=
  [0x6a09e667, 0xbb67ae85, 0x3c6ef372, 0xa54ff53a, 0x510e527f, 0x9b05688c, 0x1f83d9ab, 0x5be0cd19]

/-- 32-bit right rotation, `rotr` in the source: `(x >> n) | (x << (32 - n))` on `uint32_t`. -/
def rotr (x n : Nat) : Nat := (x >>> n) ||| ((x <<< (32 - n)) % M32)

/-- Sigma-0 of the round function: `rotr(a,2) ^ rotr(a,13) ^ rotr(a,22)`. -/
def bsig0 (x : Nat) : Nat := rotr x 2 ^^^ rotr x 13 ^^^ rotr x 22

/-- Sigma-1 of the round function: `rotr(e,6) ^ rotr(e,11) ^ rotr(e,25)`. -/
def bsig1 (x : Nat) : Nat := rotr x 6 ^^^ rotr x 11 ^^^ rotr x 25

/-- Message-schedule sigma-0: `rotr(w,7) ^ rotr(w,18) ^ (w >> 3)`. -/
def ssig0 (x : Nat) : Nat := rotr x 7 ^^^ rotr x 18 ^^^ (x >>> 3)

/-- Message-schedule sigma-1: `rotr(w,17) ^ rotr(w,19) ^ (w >> 10)`. -/
def ssig1 (x : Nat) : Nat := rotr x 17 ^^^ rotr x 19 ^^^ (x >>> 10)

/-- The Ch function `(e & f) ^ (~e & g)`; `~e` on `uint32_t` is `e ^ 0xffffffff`. -/
def chFun (e f g : Nat) : Nat := (e &&& f) ^^^ ((e ^^^ 0xffffffff) &&& g)

/-- The Maj function `(a & b) ^ (a & c) ^ (b & c)`. -/
def majFun (a b c : Nat) : Nat := (a &&& b) ^^^ (a &&& c) ^^^ (b &&& c)

/-- Big-endian 32-bit words of a 64-byte block, as built by the `w[i]` loop. -/
def blockWords : List Nat → List Nat
  | b0 :: b1 :: b2 :: b3 :: rest =>
      ((b0 <<< 24) ||| (b1 <<< 16) ||| (b2 <<< 8) ||| b3) :: blockWords rest
  | _ => []

/-- Next schedule word from the already-produced words held most-recent-first:
`w[i] = w[i-16] + s0(w[i-15]) + w[i-7] + s1(w[i-2])` with 32-bit wraparound. -/
def wNext (rev : List Nat) : Nat :=
  (rev.getD 15 0 + ssig0 (rev.getD 14 0) + rev.getD 6 0 + ssig1 (rev.getD 1 0)) % M32

/-- Extend the schedule by the given number of words (48 in SHA-256). -/
def extendSchedule : Nat → List Nat → List Nat
  | 0, rev => rev.reverse
  | Nat.succ k, rev => extendSchedule k (wNext rev :: rev)

/-- The 64-word message schedule of one block. -/
def msgSchedule (ws16 : List Nat) : List Nat := extendSchedule 48 ws16.reverse

/-- One round of the compression loop on the working variables `(a,…,h)`. -/
def roundStep (st : Nat × Nat × Nat × Nat × Nat × Nat × Nat × Nat) (kw : Nat × Nat) :
    Nat × Nat × Nat × Nat × Nat × Nat × Nat × Nat :=
  let a := st.1; let b := st.2.1; let c := st.2.2.1; let d := st.2.2.2.1
  let e := st.2.2.2.2.1; let f := st.2.2.2.2.2.1; let g := st.2.2.2.2.2.2.1
  let hh := st.2.2.2.2.2.2.2
  let temp1 := (hh + bsig1 e + chFun e f g + kw.1 + kw.2) % M32
  let temp2 := (bsig0 a + majFun a b c) % M32
  ((temp1 + temp2) % M32, a, b, c, (d + temp1) % M32, e, f, g)

/-- Compression of one 64-byte block into the running hash values. -/
def compress (hs : List Nat) (block : List Nat) : List Nat :=
  let w := msgSchedule (blockWords block)
  let st0 := (hs.getD 0 0, hs.getD 1 0, hs.getD 2 0, hs.getD 3 0,
              hs.getD 4 0, hs.getD 5 0, hs.getD 6 0, hs.getD 7 0)
  let st := (kTable.zip w).foldl roundStep st0
  [(hs.getD 0 0 + st.1) % M32, (hs.getD 1 0 + st.2.1) % M32,
   (hs.getD 2 0 + st.2.2.1) % M32, (hs.getD 3 0 + st.2.2.2.1) % M32,
   (hs.getD 4 0 + st.2.2.2.2.1) % M32, (hs.getD 5 0 + st.2.2.2.2.2.1) % M32,
   (hs.getD 6 0 + st.2.2.2.2.2.2.1) % M32, (hs.getD 7 0 + st.2.2.2.2.2.2.2) % M32]

/-- The eight big-endian bytes of the 64-bit message bit length. -/
def lenBytes (bl : Nat) : List Nat :=
  [(bl >>> 56) &&& 0xff, (bl >>> 48) &&& 0xff, (bl >>> 40) &&& 0xff, (bl >>> 32) &&& 0xff,
   (bl >>> 24) &&& 0xff, (bl >>> 16) &&& 0xff, (bl >>> 8) &&& 0xff, bl &&& 0xff]

/-- Padded message: `0x80`, zeros until length ≡ 56 (mod 64), then the
original bit length as a 64-bit big-endian integer. -/
def paddedMessage (input : List Nat) : List Nat :=
  let n := input.length
  input ++ 0x80 :: List.replicate ((120 - (n + 1) % 64) % 64) 0 ++ lenBytes ((8 * n) % 2 ^ 64)

/-- Split a byte list into its successive 64-byte blocks (fuel-driven to keep
the definition structurally recursive, hence kernel-evaluable). -/
def splitBlocksFuel : Nat → List Nat → List (List Nat)
  | 0, _ => []
  | Nat.succ k, l => if l = [] then [] else l.take 64 :: splitBlocksFuel k (l.drop 64)

/-- The 64-byte blocks of a byte list. -/
def splitBlocks (l : List Nat) : List (List Nat) := splitBlocksFuel l.length l

/-- The `sha256` function of login.cpp: pad, compress each block, serialize
the final hash values big-endian. -/
def sha256 (input : List Nat) : List Nat :=
  let hs := (splitBlocks (paddedMessage input)).foldl compress hInit
  hs.flatMap fun h =>
    [(h >>> 24) &&& 0xff, (h >>> 16) &&& 0xff, (h >>> 8) &&& 0xff, h &&& 0xff]

/-! ## base64url (`base64url` in login.cpp, lines 106–138) -/

/-- The base64url alphabet of the source. -/
def b64AlphabetChars : List Char :=
  chars "ABCDEFGHIJKLMNOPQRSTUVWXYZabcdefghijklmnopqrstuvwxyz0123456789-_"

/-- Indexing into the base64url alphabet (`alphabet[i]`). -/
def b64At (i : Nat) : Char := b64AlphabetChars.getD i 'A'

/-- The `base64url` encoder: full 3-byte chunks while `i + 2 < len`, then the
2-byte and 1-byte tail cases, no padding. -/
def base64url : List Nat → List Char
  | b0 :: b1 :: b2 :: rest =>
      let chunk := (b0 <<< 16) ||| (b1 <<< 8) ||| b2
      b64At ((chunk >>> 18) &&& 0x3f) :: b64At ((chunk >>> 12) &&& 0x3f) ::
      b64At ((chunk >>> 6) &&& 0x3f) :: b64At (chunk &&& 0x3f) :: base64url rest
  | [b0, b1] =>
      [b64At ((b0 >>> 2) &&& 0x3f),
       b64At (((b0 &&& 0x03) <<< 4) ||| ((b1 >>> 4) &&& 0x0f)),
       b64At ((b1 &&& 0x0f) <<< 2)]
  | [b0] => [b64At ((b0 >>> 2) &&& 0x3f), b64At ((b0 &&& 0x03) <<< 4)]
  | [] => []

/-! ## Percent-encoding and -decoding (`url_encode` / `url_decode`, lines 140–172) -/

/-- Unreserved characters passed through unchanged by `url_encode`. -/
def isUnreserved (c : Char) : Bool :=
  (65 ≤ c.toNat && c.toNat ≤ 90) || (97 ≤ c.toNat && c.toNat ≤ 122) ||
  (48 ≤ c.toNat && c.toNat ≤ 57) || c = '-' || c = '_' || c = '.' || c = '~'

/-- Uppercase hexadecimal digit of a value `< 16`. -/
def hexUpperDigit (n : Nat) : Char :=
  (chars "0123456789ABCDEF").getD n '0'

/-- The `url_encode` function: unreserved bytes pass through, every other
byte becomes `%XX` with uppercase hex. -/
def url_encode (s : List Char) : List Char :=
  s.flatMap fun c =>
    if isUnreserved c then [c]
    else ['%', hexUpperDigit (byteOfChar c / 16), hexUpperDigit (byteOfChar c % 16)]

/-- Whitespace in the sense of `std::isspace` in the "C" locale, skipped by
`std::stoi` before the number. -/
def isSpaceChar (c : Char) : Bool := c.toNat = 32 || (9 ≤ c.toNat && c.toNat ≤ 13)

/-- Hexadecimal digit test (`0-9`, `a-f`, `A-F`). -/
def isHexDigitChar (c : Char) : Bool :=
  (48 ≤ c.toNat && c.toNat ≤ 57) || (97 ≤ c.toNat && c.toNat ≤ 102) ||
  (65 ≤ c.toNat && c.toNat ≤ 70)

/-- Value of a hexadecimal digit character. -/
def hexVal (c : Char) : Nat :=
  if c.toNat ≤ 57 then c.toNat - 48 else if c.toNat ≤ 70 then c.toNat - 55 else c.toNat - 87

/-- Greedy accumulation of further hexadecimal digits. -/
def goHex (acc : Nat) : List Char → Nat
  | [] => acc
  | c :: rest => if isHexDigitChar c then goHex (acc * 16 + hexVal c) rest else acc

/-- Longest hexadecimal-digit run at the front; `none` when there is none. -/
def parseHexDigits : List Char → Option Nat
  | [] => none
  | c :: rest => if isHexDigitChar c then some (goHex (hexVal c) rest) else none

/-- Unsigned part of `strtol` with base 16: an optional `0x`/`0X` prefix (which
alone still yields the subject sequence `"0"`), then hexadecimal digits. -/
def parseUnsigned : List Char → Option Nat
  | c :: d :: rest =>
      if c = '0' && (d = 'x' || d = 'X') then
        match parseHexDigits rest with
        | some n => some n
        | none => some 0
      else parseHexDigits (c :: d :: rest)
  | l => parseHexDigits l

/-- Model of `std::stoi(s, nullptr, 16)`: skip whitespace, optional sign,
base-16 number; `none` models the `std::invalid_argument` throw when no
digits can be parsed. -/
def stoi16 (s : List Char) : Option Int :=
  match s.dropWhile isSpaceChar with
  | [] => none
  | c :: rest =>
      if c = '-' then (parseUnsigned rest).map fun n => -(n : Int)
      else if c = '+' then (parseUnsigned rest).map fun n => (n : Int)
      else (parseUnsigned (c :: rest)).map fun n => (n : Int)

/-- The `url_decode` function.  A `%` with at least two following characters
consumes them through `std::stoi(hex, nullptr, 16)` and pushes the resulting
byte (`static_cast<char>`); `+` becomes a space; anything else (including a
`%` within two characters of the end) is passed through.  `none` models the
uncaught `std::invalid_argument` escaping from `std::stoi`. -/
def url_decode : List Char → Option (List Char)
  | '%' :: a :: b :: rest =>
      match stoi16 [a, b] with
      | some n => (url_decode rest).map fun out => Char.ofNat ((n % 256).toNat) :: out
      | none => none
  | '+' :: rest => (url_decode rest).map fun out => ' ' :: out
  | c :: rest => (url_decode rest).map fun out => c :: out
  | [] => some []

/-! ## Callback-target parsing (`extract_code_from_callback_target`, lines 293–322) -/

/-- Splitting of the query on `&` exactly as the cursor loop of the source
does it: parameters are the substrings between ampersands, and the loop never
produces a parameter for a position at or past the end of the query. -/
def splitAmpGo (acc : List Char) : List Char → List (List Char)
  | [] => [acc.reverse]
  | '&' :: rest =>
      acc.reverse :: (match rest with
        | [] => []
        | r => splitAmpGo [] r)
  | c :: rest => splitAmpGo (c :: acc) rest

/-- Parameters of a query string, per the source's cursor loop (an empty
query yields no parameters because the loop body never runs). -/
def cppSplitAmp : List Char → List (List Char)
  | [] => []
  | q => splitAmpGo [] q

/-- Loop body of `extract_code_from_callback_target`: the first parameter
that starts with `code=` and is longer than 5 characters is percent-decoded
and returned; an exception from the decoder propagates (`Except.error`). -/
def extractLoop : List (List Char) → Except Unit (Option (List Char))
  | [] => Except.ok none
  | p :: rest =>
      if p.take 5 = chars "code=" ∧ 5 < p.length then
        match url_decode (p.drop 5) with
        | some v => Except.ok (some v)
        | none => Except.error ()
      else extractLoop rest

/-- The `extract_code_from_callback_target` method: split at the first `?`,
scan the `&`-separated parameters. -/
def extract_code (target : List Char) : Except Unit (Option (List Char)) :=
  match target.findIdx? fun c => c = '?' with
  | none => Except.ok none
  | some q => extractLoop (cppSplitAmp (target.drop (q + 1)))

/-- Modelled from the claim's wording of C4 for comparison with the source:
the first `key=value` segment whose key is `code` has its value
percent-decoded and returned immediately, with no length requirement. -/
def claimLoop : List (List Char) → Except Unit (Option (List Char))
  | [] => Except.ok none
  | p :: rest =>
      if p.take 5 = chars "code=" then
        match url_decode (p.drop 5) with
        | some v => Except.ok (some v)
        | none => Except.error ()
      else claimLoop rest

/-- Modelled from the claim's wording of C4: like `extract_code` but
returning the value of the first `code=` segment even when it is empty. -/
def extractCodeClaim (target : List Char) : Except Unit (Option (List Char)) :=
  match target.findIdx? fun c => c = '?' with
  | none => Except.ok none
  | some q => claimLoop (cppSplitAmp (target.drop (q + 1)))

/-! ## The callback listener (`wait_for_callback_code`, lines 324–397) -/

/-- Index of the first `"\r\n"` in the received request, if any. -/
def crlfIdx : List Char → Option Nat
  | '\r' :: '\n' :: _ => some 0
  | _ :: rest => (crlfIdx rest).map fun i => i + 1
  | [] => none

/-- Target of the HTTP request line: the text between the first and second
space of the first line (`METHOD target HTTP/version`); `none` when either
space is missing. -/
def requestTarget (req : List Char) : Option (List Char) :=
  let firstLine := match crlfIdx req with
    | some i => req.take i
    | none => req
  match firstLine.findIdx? fun c => c = ' ' with
  | none => none
  | some i1 =>
      match (firstLine.drop (i1 + 1)).findIdx? fun c => c = ' ' with
      | none => none
      | some j => some ((firstLine.drop (i1 + 1)).take j)

/-- Observable side effects of the listener, in the order they happen. -/
inductive NetEvent where
  | sentResponse
  | closedClient
  | closedServer
deriving DecidableEq, Repr

/-- Outcomes of the system calls made by one run of the listener: whether
`socket` succeeds, whether `bind`+`listen` succeed, whether `accept` returns
a client, and the request text received (`none` when `recv` returns no
bytes). -/
structure CallbackEnv where
  socketOk : Bool
  bindListenOk : Bool
  acceptOk : Bool
  recvd : Option (List Char)

/-- The `wait_for_callback_code` method as a function of the system-call
outcomes, returning the result (with `Except.error ()` for an exception
escaping out of `url_decode`) together with the emitted side effects. -/
def wait_for_callback_code (env : CallbackEnv) :
    Except Unit (Option (List Char)) × List NetEvent :=
  if env.socketOk then
    if env.bindListenOk then
      if env.acceptOk then
        match env.recvd with
        | none =>
            (Except.ok none,
             [NetEvent.sentResponse, NetEvent.closedClient, NetEvent.closedServer])
        | some req =>
            match requestTarget req with
            | none =>
                (Except.ok none,
                 [NetEvent.sentResponse, NetEvent.closedClient, NetEvent.closedServer])
            | some t =>
                match extract_code t with
                | Except.error e => (Except.error e, [])
                | Except.ok c =>
                    (Except.ok c,
                     [NetEvent.sentResponse, NetEvent.closedClient, NetEvent.closedServer])
      else (Except.ok none, [NetEvent.closedServer])
    else (Except.ok none, [NetEvent.closedServer])
  else (Except.ok none, [])

/-! ## Port probing (`pick_callback_port`, lines 263–291) -/

/-- The fixed candidate ports `kRedirectPorts`. -/
def kRedirectPorts : List Nat := [2259, 6460, 7119, 8870, 9096]

/-- The probing loop: a failed `socket` call skips the port (`continue`), a
successful bind returns it, a failed bind moves on. -/
def pickLoop (socketOk canBind : Nat → Bool) : List Nat → Option Nat
  | [] => none
  | p :: rest =>
      if socketOk p then
        if canBind p then some p else pickLoop socketOk canBind rest
      else pickLoop socketOk canBind rest

/-- The `pick_callback_port` method as a function of which ports get a
socket and which ports bind. -/
def pick_callback_port (socketOk canBind : Nat → Bool) : Option Nat :=
  pickLoop socketOk canBind kRedirectPorts

/-! ## PKCE generation and the authorization URL (lines 174–261, 399–408) -/

/-- The identity-provider record of the source header. -/
structure LoginProvider where
  idp_id : List Char
  login_provider_code : List Char
  login_provider_display_name : List Char
  login_provider : List Char
  streaming_service_url : List Char
  login_provider_priority : Int

/-- The `LoginProvider::nvidia_default` constant. -/
def LoginProvider.nvidia_default : LoginProvider :=
  ⟨chars "PDiAhv2kJTFeQ7WOPqiQ2tRZ7lGhR2X11dXvM4TZSxg",
   chars "NVIDIA", chars "NVIDIA", chars "NVIDIA",
   chars "https://prod.cloudmatchbeta.nvidiagrid.net/", 0⟩

/-- A PKCE verifier/challenge pair. -/
structure PkceChallenge where
  verifier : List Char
  challenge : List Char

/-- The 62-character alphanumeric alphabet of `random_alnum`. -/
def charsetChars : List Char :=
  chars "ABCDEFGHIJKLMNOPQRSTUVWXYZabcdefghijklmnopqrstuvwxyz0123456789"

/-- The `random_alnum` function, with the random draws passed explicitly;
`uniform_int_distribution(0, 61)` keeps every draw within the alphabet,
modelled by reducing the draw modulo 62. -/
def random_alnum (len : Nat) (draws : Nat → Nat) : List Char :=
  (List.range len).map fun i => charsetChars.getD (draws i % 62) 'A'

/-- The `make_pkce_challenge` method: a 64-character random verifier and the
base64url-encoded SHA-256 digest of it. -/
def make_pkce_challenge (draws : Nat → Nat) : PkceChallenge :=
  let verifier := random_alnum 64 draws
  ⟨verifier, base64url (sha256 (bytesOfChars verifier))⟩

/-- The `kClientId` constant. -/
def kClientIdChars : List Char := chars "ZU7sPN-miLujMD95LfOQ453IB0AtjM8sMyvgJ9wCXEQ"

/-- The `kScopes` constant. -/
def kScopesChars : List Char := chars "openid consent email tk_client age"

/-- The `device_id` method: base64url of the SHA-256 digest of the fixed
device label. -/
def device_id : List Char := base64url (sha256 (bytesOfChars (chars "opennow-rewrite-device")))

/-- Decimal digits of a natural number (`std::to_string`). -/
def natChars (n : Nat) : List Char := (Nat.repr n).toList

/-- Decimal rendering of the clock value (`std::to_string` on the tick count). -/
def intChars (n : Int) : List Char := (Int.repr n).toList

/-- The `generate_nonce` method, with the high-resolution clock reading
passed explicitly. -/
def generate_nonce (now : Int) : List Char :=
  base64url (sha256 (bytesOfChars (intChars now ++ chars ":nonce")))

/-- The `build_auth_url` method, with the clock reading feeding the nonce
passed explicitly; everything else is as in the source. -/
def build_auth_url (pkce : PkceChallenge) (callback_port : Nat)
    (provider : LoginProvider) (now : Int) : List Char :=
  chars "https://login.nvidia.com/authorize?"
  ++ chars "response_type=code"
  ++ chars "&device_id=" ++ url_encode device_id
  ++ chars "&scope=" ++ url_encode kScopesChars
  ++ chars "&client_id=" ++ url_encode kClientIdChars
  ++ chars "&redirect_uri=" ++ url_encode (chars "http://localhost:" ++ natChars callback_port)
  ++ chars "&ui_locales=en_US"
  ++ chars "&nonce=" ++ url_encode (generate_nonce now)
  ++ chars "&prompt=select_account"
  ++ chars "&code_challenge=" ++ url_encode pkce.challenge
  ++ chars "&code_challenge_method=S256"
  ++ chars "&idp_id=" ++ url_encode provider.idp_id

/-- Join query parameters with `&` separators. -/
def joinAmp : List (List Char) → List Char
  | [] => []
  | p :: rest => p ++ rest.flatMap fun q => '&' :: q

/-! ## Helper lemmas -/

/-- Every alphabet lookup lands in the alphabet (the out-of-range default
`'A'` is itself an alphabet character). -/
theorem b64At_mem (i : Nat) : b64At i ∈ b64AlphabetChars := by
  by_cases h : i < b64AlphabetChars.length
  · rw [b64At, List.getD_eq_getElem _ _ h]
    exact List.getElem_mem h
  · rw [b64At, List.getD_eq_default _ _ (Nat.le_of_not_lt h)]
    decide

/-- Every character emitted by the encoder is an alphabet character. -/
theorem mem_base64url (l : List Nat) : ∀ c ∈ base64url l, c ∈ b64AlphabetChars := by
  induction l using base64url.induct with
  | case1 b0 b1 b2 rest ih =>
      intro c hc
      simp only [base64url, List.mem_cons] at hc
      rcases hc with rfl | rfl | rfl | rfl | hc
      · exact b64At_mem _
      · exact b64At_mem _
      · exact b64At_mem _
      · exact b64At_mem _
      · exact ih c hc
  | case2 b0 b1 =>
      intro c hc
      simp only [base64url, List.mem_cons] at hc
      rcases hc with rfl | rfl | rfl | hc
      · exact b64At_mem _
      · exact b64At_mem _
      · exact b64At_mem _
      · simp at hc
  | case3 b0 =>
      intro c hc
      simp only [base64url, List.mem_cons] at hc
      rcases hc with rfl | rfl | hc
      · exact b64At_mem _
      · exact b64At_mem _
      · simp at hc
  | case4 => intro c hc; simp [base64url] at hc

/-- The encoder never emits the padding character. -/
theorem base64url_count_eq_zero (l : List Nat) : List.count '=' (base64url l) = 0 := by
  rw [List.count_eq_zero]
  intro hmem
  have := mem_base64url l '=' hmem
  simp [b64AlphabetChars, chars] at this

/-- The probing loop returns the first list entry whose socket opens and
whose bind succeeds. -/
theorem pickLoop_find (socketOk canBind : Nat → Bool) (l : List Nat) :
    pickLoop socketOk canBind l = l.find? fun p => socketOk p && canBind p := by
  induction l with
  | nil => rfl
  | cons p rest ih =>
      by_cases h1 : socketOk p <;> by_cases h2 : canBind p <;>
        simp [pickLoop, List.find?, h1, h2, ih]

/-- The extraction loop finds nothing when no parameter starts with `code=`. -/
theorem extractLoop_none (l : List (List Char))
    (h : ∀ p ∈ l, p.take 5 ≠ chars "code=") : extractLoop l = Except.ok none := by
  induction l with
  | nil => rfl
  | cons p rest ih =>
      rw [extractLoop, if_neg fun hc => (h p (List.mem_cons_self p rest)) hc.1]
      exact ih fun q hq => h q (List.mem_cons_of_mem p hq)

/-! ## Claim theorems -/

/-- Claim C1: the `sha256` embedding (padding with `0x80` and zeros to
56 mod 64, the 64-bit big-endian bit length, 64-byte blocks, the standard
message schedule and round function in 32-bit wraparound arithmetic) maps
the empty input to the standard empty-string digest
`e3b0c44298fc1c149afbf4c8996fb92427ae41e4649b934ca495991b7852b855`, and the
padded message length is always a multiple of 64 bytes. -/
theorem sha256_empty_digest :
    sha256 [] =
      [0xe3, 0xb0, 0xc4, 0x42, 0x98, 0xfc, 0x1c, 0x14,
       0x9a, 0xfb, 0xf4, 0xc8, 0x99, 0x6f, 0xb9, 0x24,
       0x27, 0xae, 0x41, 0xe4, 0x64, 0x9b, 0x93, 0x4c,
       0xa4, 0x95, 0x99, 0x1b, 0x78, 0x52, 0xb8, 0x55]
    ∧ ∀ input : List Nat, (paddedMessage input).length % 64 = 0 := by
  constructor
  · decide
  · intro input
    simp [paddedMessage, lenBytes, List.length_append, List.length_replicate]
    omega

/-- Claim C2 (failing input): `url_decode` reaches `std::stoi` with the
non-hexadecimal pair `GG`, which throws `std::invalid_argument`; the
exception (modelled as `none` / `Except.error ()`) escapes through
`extract_code_from_callback_target`, so percent-decoding is not exception
free for every input. -/
theorem url_decode_stoi_throw :
    url_decode (chars "%GG") = none
    ∧ extract_code (chars "/?code=%GG") = Except.error () :=
  ⟨rfl, rfl⟩

/-- Claim C3 (counterexample): when `accept` fails, the listener returns
absence after closing only the listening socket; no HTTP response is sent
and no client connection exists to be closed, contradicting the claim that
the fixed 200 response is still sent on accept failure. -/
theorem wait_callback_accept_failure_counterexample :
    wait_for_callback_code ⟨true, true, false, none⟩ =
      (Except.ok none, [NetEvent.closedServer])
    ∧ List.count NetEvent.sentResponse
        (wait_for_callback_code ⟨true, true, false, none⟩).2 = 0
    ∧ List.count NetEvent.closedClient
        (wait_for_callback_code ⟨true, true, false, none⟩).2 = 0 :=
  ⟨rfl, by decide, by decide⟩

/-- Claim C3 (amended): on a parse failure — malformed request line, or a
target whose extraction yields no code — the listener returns absence and
still sends the fixed 200 response, closing the client connection and then
the listening socket; on accept failure it returns absence having closed
only the listening socket, sending nothing. -/
theorem wait_callback_parse_failure_events :
    (∀ req : List Char, requestTarget req = none →
        wait_for_callback_code ⟨true, true, true, some req⟩ =
          (Except.ok none,
           [NetEvent.sentResponse, NetEvent.closedClient, NetEvent.closedServer]))
    ∧ (∀ req t : List Char, requestTarget req = some t →
        extract_code t = Except.ok none →
        wait_for_callback_code ⟨true, true, true, some req⟩ =
          (Except.ok none,
           [NetEvent.sentResponse, NetEvent.closedClient, NetEvent.closedServer]))
    ∧ wait_for_callback_code ⟨true, true, false, none⟩ =
        (Except.ok none, [NetEvent.closedServer]) := by
  refine ⟨fun req h => ?_, fun req t h1 h2 => ?_, rfl⟩
  · simp [wait_for_callback_code, h]
  · simp [wait_for_callback_code, h1, h2]

/-- Claim C3 witness: concrete parse failures — a request without spaces,
and a well-formed request whose target has no query string — both return
absence with the response sent and both sockets closed. -/
theorem wait_callback_parse_failure_events_witness :
    wait_for_callback_code ⟨true, true, true, some (chars "BADREQUEST")⟩ =
      (Except.ok none,
       [NetEvent.sentResponse, NetEvent.closedClient, NetEvent.closedServer])
    ∧ wait_for_callback_code
        ⟨true, true, true, some (chars "GET /nocode HTTP/1.1\r\nHost: x")⟩ =
      (Except.ok none,
       [NetEvent.sentResponse, NetEvent.closedClient, NetEvent.closedServer]) :=
  ⟨wait_callback_parse_failure_events.1 (chars "BADREQUEST") rfl,
   wait_callback_parse_failure_events.2.1 (chars "GET /nocode HTTP/1.1\r\nHost: x")
     (chars "/nocode") rfl rfl⟩

/-- Claim C4 (counterexample): on the target `/?code=`, the algorithm the
claim describes (return the percent-decoded value of the first segment whose
key is `code`) yields the empty string, but the source skips segments whose
value is empty and returns absence. -/
theorem extract_code_empty_value_counterexample :
    extractCodeClaim (chars "/?code=") = Except.ok (some [])
    ∧ extract_code (chars "/?code=") = Except.ok none :=
  ⟨rfl, rfl⟩

/-- Claim C4 (amended): `extract_code_from_callback_target` splits the
target on the first `?` and the query on `&`, and returns the
percent-decoded value of the first `code=` segment whose value is nonempty;
it returns absence when the target has no `?` or when no segment starts with
`code=`; on the claim's example it returns `abc123/foo+bar`, and with two
`code` parameters the first (nonempty) one wins. -/
theorem extract_code_amended :
    extract_code (chars "/?code=abc123%2Ffoo%2Bbar&state=foo") =
      Except.ok (some (chars "abc123/foo+bar"))
    ∧ (∀ t : List Char, '?' ∉ t → extract_code t = Except.ok none)
    ∧ (∀ q : List Char, (∀ p ∈ cppSplitAmp q, p.take 5 ≠ chars "code=") →
        extract_code ('/' :: '?' :: q) = Except.ok none)
    ∧ extract_code (chars "/?code=a&code=b") = Except.ok (some (chars "a")) := by
  refine ⟨rfl, fun t h => ?_, fun q h => ?_, rfl⟩
  · have hn : (t.findIdx? fun c => c = '?') = none := by
      rw [List.findIdx?_eq_none_iff]
      intro x hx
      simp only [decide_eq_false_iff_not]
      intro he
      exact h (he ▸ hx)
    simp [extract_code, hn]
  · have hidx : (('/' :: '?' :: q).findIdx? fun c => c = '?') = some 1 := by
      simp [List.findIdx?]
    simp only [extract_code, hidx, List.drop]
    exact extractLoop_none _ h

/-- Claim C4 witness: a target without `?` and a query carrying only a
`state` parameter both yield absence. -/
theorem extract_code_amended_witness :
    extract_code (chars "/nothing") = Except.ok none
    ∧ extract_code ('/' :: '?' :: chars "state=foo") = Except.ok none :=
  ⟨extract_code_amended.2.1 (chars "/nothing") (by decide),
   extract_code_amended.2.2.1 (chars "state=foo") (by decide)⟩

/-- Claim C5: for every PKCE challenge, port, provider and clock reading,
the built URL is the fixed authorization-endpoint prefix followed by the
query parameters in exactly the order response_type, device_id, scope,
client_id, redirect_uri (`http://localhost:<port>`), ui_locales, nonce,
prompt, code_challenge, code_challenge_method, idp_id, joined with `&`,
every value percent-encoded individually; in particular the output starts
with the fixed prefix. -/
theorem build_auth_url_fixed_order :
    ∀ (pkce : PkceChallenge) (port : Nat) (provider : LoginProvider) (now : Int),
      build_auth_url pkce port provider now =
        chars "https://login.nvidia.com/authorize?" ++
        joinAmp
          [chars "response_type=code",
           chars "device_id=" ++ url_encode device_id,
           chars "scope=" ++ url_encode kScopesChars,
           chars "client_id=" ++ url_encode kClientIdChars,
           chars "redirect_uri=" ++ url_encode (chars "http://localhost:" ++ natChars port),
           chars "ui_locales=en_US",
           chars "nonce=" ++ url_encode (generate_nonce now),
           chars "prompt=select_account",
           chars "code_challenge=" ++ url_encode pkce.challenge,
           chars "code_challenge_method=S256",
           chars "idp_id=" ++ url_encode provider.idp_id]
      ∧ ∃ rest : List Char,
          build_auth_url pkce port provider now =
            chars "https://login.nvidia.com/authorize?" ++ rest := by
  intro pkce port provider now
  have h1 : chars "&device_id=" = '&' :: chars "device_id=" := rfl
  have h2 : chars "&scope=" = '&' :: chars "scope=" := rfl
  have h3 : chars "&client_id=" = '&' :: chars "client_id=" := rfl
  have h4 : chars "&redirect_uri=" = '&' :: chars "redirect_uri=" := rfl
  have h5 : chars "&ui_locales=en_US" = '&' :: chars "ui_locales=en_US" := rfl
  have h6 : chars "&nonce=" = '&' :: chars "nonce=" := rfl
  have h7 : chars "&prompt=select_account" = '&' :: chars "prompt=select_account" := rfl
  have h8 : chars "&code_challenge=" = '&' :: chars "code_challenge=" := rfl
  have h9 : chars "&code_challenge_method=S256" = '&' :: chars "code_challenge_method=S256" := rfl
  have h10 : chars "&idp_id=" = '&' :: chars "idp_id=" := rfl
  have hmain : build_auth_url pkce port provider now =
      chars "https://login.nvidia.com/authorize?" ++
      joinAmp
        [chars "response_type=code",
         chars "device_id=" ++ url_encode device_id,
         chars "scope=" ++ url_encode kScopesChars,
         chars "client_id=" ++ url_encode kClientIdChars,
         chars "redirect_uri=" ++ url_encode (chars "http://localhost:" ++ natChars port),
         chars "ui_locales=en_US",
         chars "nonce=" ++ url_encode (generate_nonce now),
         chars "prompt=select_account",
         chars "code_challenge=" ++ url_encode pkce.challenge,
         chars "code_challenge_method=S256",
         chars "idp_id=" ++ url_encode provider.idp_id] := by
    simp only [build_auth_url, joinAmp, List.flatMap_cons, List.flatMap_nil, List.append_nil,
      h1, h2, h3, h4, h5, h6, h7, h8, h9, h10, List.cons_append, List.append_assoc]
  exact ⟨hmain, _, hmain⟩

/-- Claim C6: `base64url` never emits the padding character `=` on any byte
sequence (1- and 2-byte tails included), and consequently no generated PKCE
challenge contains `=`. -/
theorem base64url_no_padding :
    (∀ data : List Nat, List.count '=' (base64url data) = 0)
    ∧ ∀ draws : Nat → Nat,
        List.count '=' (make_pkce_challenge draws).challenge = 0 := by
  refine ⟨base64url_count_eq_zero, fun draws => ?_⟩
  simpa [make_pkce_challenge] using
    base64url_count_eq_zero (sha256 (bytesOfChars (random_alnum 64 draws)))

/-- Claim C7: every generated PKCE pair has a verifier of length 64 (hence
at least 43 and at most 128) drawn only from the 62-character alphanumeric
alphabet, and a challenge equal to base64url of the SHA-256 digest of the
verifier. -/
theorem make_pkce_challenge_spec :
    ∀ draws : Nat → Nat,
      43 ≤ (make_pkce_challenge draws).verifier.length
      ∧ (make_pkce_challenge draws).verifier.length ≤ 128
      ∧ (∀ c ∈ (make_pkce_challenge draws).verifier, c ∈ charsetChars)
      ∧ (make_pkce_challenge draws).challenge =
          base64url (sha256 (bytesOfChars (make_pkce_challenge draws).verifier)) := by
  intro draws
  have hlen : (make_pkce_challenge draws).verifier.length = 64 := by
    simp [make_pkce_challenge, random_alnum]
  refine ⟨by omega, by omega, fun c hc => ?_, by simp only [make_pkce_challenge]⟩
  simp only [make_pkce_challenge, random_alnum, List.mem_map, List.mem_range] at hc
  obtain ⟨i, -, rfl⟩ := hc
  have hlt : draws i % 62 < charsetChars.length := by
    have h62 : charsetChars.length = 62 := by decide
    rw [h62]
    exact Nat.mod_lt _ (by decide)
  rw [List.getD_eq_getElem _ _ hlt]
  exact List.getElem_mem hlt

/-- Claim C7 witness: with the constant draw 0 the verifier is all `'A'`,
and the letter produced is indeed in the alphanumeric alphabet. -/
theorem make_pkce_challenge_spec_witness : 'A' ∈ charsetChars :=
  (make_pkce_challenge_spec fun _ => 0).2.2.1 'A' (by decide)

/-- Claim C8: port probing scans exactly the fixed ordered list 2259, 6460,
7119, 8870, 9096 and returns the first port that gets a socket and binds;
if nothing in that list succeeds it returns absence. -/
theorem pick_callback_port_first_free :
    ∀ socketOk canBind : Nat → Bool,
      pick_callback_port socketOk canBind =
        List.find? (fun p => socketOk p && canBind p) [2259, 6460, 7119, 8870, 9096]
      ∧ ((∀ p ∈ [2259, 6460, 7119, 8870, 9096], (socketOk p && canBind p) = false) →
          pick_callback_port socketOk canBind = none) := by
  intro socketOk canBind
  have hfind : pick_callback_port socketOk canBind =
      List.find? (fun p => socketOk p && canBind p) [2259, 6460, 7119, 8870, 9096] :=
    pickLoop_find socketOk canBind kRedirectPorts
  refine ⟨hfind, fun hall => ?_⟩
  rw [hfind, List.find?_eq_none]
  intro p hp
  simp [hall p hp]

/-- Claim C8 witness: when no port binds, the probe reports absence. -/
theorem pick_callback_port_first_free_witness :
    pick_callback_port (fun _ => true) (fun _ => false) = none :=
  (pick_callback_port_first_free (fun _ => true) fun _ => false).2 (by decide)

/-- Claim C9: `device_id` is a constant of the build — the base64url-encoded
SHA-256 digest of the fixed label `opennow-rewrite-device` — so any two
invocations return the same string, concretely
`0eEyHnQIzdmwiIeQ56sBduGKnPXYjDb_npVDaPwBl30`. -/
theorem device_id_deterministic :
    device_id = base64url (sha256 (bytesOfChars (chars "opennow-rewrite-device")))
    ∧ device_id = chars "0eEyHnQIzdmwiIeQ56sBduGKnPXYjDb_npVDaPwBl30" :=
  ⟨rfl, by decide⟩

/-- Claim C10: a `code=` segment with an empty value is skipped rather than
returned: `/?code=` and `/?code=&state=x` yield absence, while
`/?code=&code=v` yields the decoded later nonempty value `v`. -/
theorem extract_code_skips_empty_code :
    extract_code (chars "/?code=") = Except.ok none
    ∧ extract_code (chars "/?code=&state=x") = Except.ok none
    ∧ extract_code (chars "/?code=&code=v") = Except.ok (some (chars "v")) :=
  ⟨rfl, rfl, rfl⟩

end OpenNow
